import Mathlib

/-!
Verification of the course-catalog application (`src/app.py`).

The app persists its data in a single JSON document (`course_catalog.json`):
`load_courses` reads and parses the whole file (empty list if the file is
absent), `save_courses` loads, appends one record and rewrites the file.
Request handlers (`add_course`, `course_details`, ...) call this store and
return a rendered page or a redirect, emitting log lines through a JSON
formatter.

The embedding below models JSON values, the backing file's state, the store
operations, and the request handlers as pure Lean functions, with Python
exceptions as explicit `Except` errors.
-/

namespace CourseCatalog

/-- A JSON value, as produced by Python's `json` module. -/
inductive Json where
  | null : Json
  | bool (b : Bool) : Json
  | num (n : Int) : Json
  | str (s : String) : Json
  | arr (items : List Json) : Json
  | obj (fields : List (String × Json)) : Json

/-- State of the backing document `course_catalog.json` on disk:
absent, present but not parseable as JSON (`json.load` would raise
`JSONDecodeError`), or present and parsing to a JSON value. -/
inductive FileContents where
  | absent : FileContents
  | invalid (raw : String) : FileContents
  | valid (v : Json) : FileContents

/-- Python exceptions that the store and the handlers can raise. -/
inductive PyError where
  | parseError (raw : String) : PyError
  | attributeError : PyError
  | keyError (k : String) : PyError
  | typeError : PyError
  deriving Repr, DecidableEq

/-- `load_courses` (src/app.py lines 54-58): returns `[]` when the file does
not exist, otherwise parses the file with `json.load` (raising
`JSONDecodeError` when the contents are not well-formed JSON). -/
def load_courses (fs : FileContents) : Except PyError Json :=
  match fs with
  | .absent => .ok (.arr [])
  | .invalid raw => .error (.parseError raw)
  | .valid v => .ok v

/-- `save_courses` (src/app.py lines 61-65): `courses = load_courses()`,
`courses.append(data)`, then rewrite the whole file with `json.dump`.
If `load_courses` raises, the exception propagates before the file is
opened for writing, so the file is untouched; `append` on a non-list
value raises `AttributeError`, also before the write.
The result pairs the outcome (`.ok` or the propagated exception) with the
file contents after the call. -/
def save_courses (data : Json) (fs : FileContents) :
    Except PyError Unit × FileContents :=
  match load_courses fs with
  | .error e => (.error e, fs)
  | .ok (.arr xs) => (.ok (), .valid (.arr (xs ++ [data])))
  | .ok _ => (.error .attributeError, fs)

/-- File contents after a sequence of (successful or failed) saves. -/
def run_saves (items : List Json) (fs : FileContents) : FileContents :=
  items.foldl (fun s d => (save_courses d s).2) fs

theorem save_courses_on_arr (data : Json) (xs : List Json) :
    save_courses data (.valid (.arr xs)) =
      (.ok (), .valid (.arr (xs ++ [data]))) := rfl

theorem run_saves_on_arr (items : List Json) (xs : List Json) :
    run_saves items (.valid (.arr xs)) = .valid (.arr (xs ++ items)) := by
  induction items generalizing xs with
  | nil => simp [run_saves]
  | cons d rest ih =>
      simp only [run_saves, List.foldl_cons] at *
      rw [save_courses_on_arr]
      rw [ih (xs ++ [d])]
      simp

theorem run_saves_absent (items : List Json) :
    run_saves items .absent = match items with
      | [] => .absent
      | d :: rest => .valid (.arr (d :: rest)) := by
  match items with
  | [] => rfl
  | d :: rest =>
      show run_saves rest (save_courses d .absent).2 = _
      have h : (save_courses d .absent).2 = .valid (.arr [d]) := rfl
      rw [h, run_saves_on_arr]
      simp

/-- C1: `save_courses` on a stored sequence `L` rewrites the document to
exactly `L ++ [c]`; consequently, starting from an absent or empty backing
document, saving the courses of a list `items` in order and then loading
returns exactly those records in insertion order. -/
theorem save_appends_and_roundtrips (c : Json) (L : List Json)
    (items : List Json) (fs : FileContents)
    (hfs : fs = .absent ∨ fs = .valid (.arr [])) :
    save_courses c (.valid (.arr L)) =
      (.ok (), .valid (.arr (L ++ [c]))) ∧
    load_courses (run_saves items fs) = .ok (.arr items) := by
  refine ⟨rfl, ?_⟩
  rcases hfs with h | h
  · subst h
    rw [run_saves_absent]
    match items with
    | [] => rfl
    | d :: rest => rfl
  · subst h
    rw [run_saves_on_arr]
    simp [load_courses]

theorem save_appends_and_roundtrips_witness :
    ((FileContents.absent = FileContents.absent ∨
        FileContents.absent = .valid (.arr [])) ∧
      save_courses (.str "a") (.valid (.arr [.str "x"])) =
        (.ok (), .valid (.arr [.str "x", .str "a"])) ∧
      load_courses (run_saves [.str "p", .str "q"] .absent) =
        .ok (.arr [.str "p", .str "q"])) := by
  refine ⟨Or.inl rfl, ?_⟩
  exact save_appends_and_roundtrips (.str "a") [.str "x"]
    [.str "p", .str "q"] .absent (Or.inl rfl)

/-- C2: when the backing document does not exist, `load_courses` returns the
empty sequence and raises no error. -/
theorem load_absent_empty :
    load_courses .absent = .ok (.arr []) := rfl

/-- C3: when the backing document exists but is not parseable as JSON,
`load_courses` fails with a parse error rather than returning a value. -/
theorem load_invalid_parse_error (raw : String) :
    load_courses (.invalid raw) = .error (.parseError raw) := rfl

/-- A Course record (spec §3): four required free-text fields and five
optional free-text fields, stored as empty string when absent. -/
structure Course where
  code : String
  name : String
  instructor : String
  semester : String
  schedule : String
  classroom : String
  prerequisites : String
  grading : String
  description : String
  deriving Repr, DecidableEq

/-- The JSON object built for a course by `add_course`
(src/app.py lines 109-118), keys in Python dict insertion order. -/
def Course.toJson (c : Course) : Json :=
  .obj [("code", .str c.code),
        ("name", .str c.name),
        ("instructor", .str c.instructor),
        ("semester", .str c.semester),
        ("schedule", .str c.schedule),
        ("classroom", .str c.classroom),
        ("prerequisites", .str c.prerequisites),
        ("grading", .str c.grading),
        ("description", .str c.description)]

/-- An operation of the store: a read (`load_courses`) or an append of a
Course record (`save_courses`). -/
inductive StoreOp where
  | load : StoreOp
  | save (c : Course) : StoreOp

/-- State of the backing document after one store operation: `load_courses`
never writes; `save_courses` leaves the file state given by its second
component. -/
def run_op (fs : FileContents) (op : StoreOp) : FileContents :=
  match op with
  | .load => fs
  | .save c => (save_courses c.toJson fs).2

/-- State of the backing document after a sequence of store operations. -/
def run_ops (ops : List StoreOp) (fs : FileContents) : FileContents :=
  ops.foldl run_op fs

/-- The document invariant of spec §3: the persisted document is a JSON
array of Course records (an absent backing file counting as the empty
sequence). -/
def IsCourseArray (fs : FileContents) : Prop :=
  fs = .absent ∨ ∃ cs : List Course, fs = .valid (.arr (cs.map Course.toJson))

theorem run_op_preserves (fs : FileContents) (op : StoreOp)
    (h : IsCourseArray fs) : IsCourseArray (run_op fs op) := by
  match op with
  | .load => exact h
  | .save c =>
      rcases h with h | ⟨cs, h⟩
      · subst h
        exact Or.inr ⟨[c], rfl⟩
      · subst h
        refine Or.inr ⟨cs ++ [c], ?_⟩
        show (save_courses c.toJson (.valid (.arr (cs.map Course.toJson)))).2 = _
        rw [save_courses_on_arr]
        simp

theorem run_ops_preserves (ops : List StoreOp) (fs : FileContents)
    (h : IsCourseArray fs) : IsCourseArray (run_ops ops fs) := by
  induction ops generalizing fs with
  | nil => exact h
  | cons op rest ih =>
      exact ih (run_op fs op) (run_op_preserves fs op h)

/-- C8: starting from an absent backing document, after every sequence of
`load_courses` and `save_courses` operations the persisted document is a
JSON array of Course records. -/
theorem store_invariant (ops : List StoreOp) :
    IsCourseArray (run_ops ops .absent) :=
  run_ops_preserves ops .absent (Or.inl rfl)

/-- C10: when the backing document exists but is not parseable,
`save_courses` propagates the parse error raised by its initial load and
leaves the file contents unchanged. -/
theorem save_on_invalid_propagates (data : Json) (raw : String) :
    save_courses data (.invalid raw) =
      (.error (.parseError raw), .invalid raw) := rfl

/-- Python whitespace for `str.strip()` (ASCII range; the handlers only
trim form input, for which this is the relevant alphabet). -/
def isPySpace (c : Char) : Bool :=
  c == ' ' || c == '\t' || c == '\n' || c == '\r' || c == '\x0b' || c == '\x0c'

/-- Python's `str.strip()`: drop leading and trailing whitespace. -/
def strip (s : String) : String :=
  String.mk (((s.data.dropWhile isPySpace).reverse.dropWhile isPySpace).reverse)

/-- Submitted form data (`request.form`): an association list; a repeated
key reads as its first value, a missing key as the `.get` default. -/
def Form : Type := List (String × String)

/-- `request.form.get(k, dflt)`. -/
def formGet (form : Form) (k : String) (dflt : String) : String :=
  match List.lookup k form with
  | some v => v
  | none => dflt

/-- Outcome of running one handler body: the returned value or the Python
exception that escaped it, the backing file contents afterwards, and the
number of log records the body emitted via `logging.info`/`logging.error`. -/
structure HandlerOutcome (α : Type) where
  result : Except PyError α
  fs : FileContents
  logLines : Nat

/-- An HTTP response after the app-level error handler ran: the handler's
value, or the generic 500 page. -/
inductive HttpResponse (α : Type) where
  | ok (a : α) : HttpResponse α
  | serverError : HttpResponse α

/-- The `@app.errorhandler(Exception)` wrapper (src/app.py lines 75-80):
an exception escaping a handler is logged (one `logging.error` record) and
turned into the generic 500 response. -/
def handle_errors {α : Type} (out : HandlerOutcome α) :
    HttpResponse α × FileContents × Nat :=
  match out.result with
  | .ok a => (.ok a, out.fs, out.logLines)
  | .error _ => (.serverError, out.fs, out.logLines + 1)

/-- Python's `len` on a JSON value (`TypeError` on numbers, booleans and
`None`). -/
def pyLen (j : Json) : Except PyError Nat :=
  match j with
  | .str s => .ok s.length
  | .arr xs => .ok xs.length
  | .obj kvs => .ok kvs.length
  | _ => .error .typeError

/-- `GET /` (src/app.py lines 83-85): renders the landing page; the body
contains no logging call. -/
def index_route (fs : FileContents) : HandlerOutcome Unit :=
  { result := .ok (), fs := fs, logLines := 0 }

/-- `GET /catalog` (src/app.py lines 87-93): loads all courses, records the
count, logs once and renders the listing. -/
def course_catalog_route (fs : FileContents) : HandlerOutcome Json :=
  match load_courses fs with
  | .error e => { result := .error e, fs := fs, logLines := 0 }
  | .ok courses =>
      match pyLen courses with
      | .error e => { result := .error e, fs := fs, logLines := 0 }
      | .ok _ => { result := .ok courses, fs := fs, logLines := 1 }

/-- `GET /manual-trace` (src/app.py lines 140-147): fixed response, one log
record. -/
def manual_trace_route (fs : FileContents) : HandlerOutcome Unit :=
  { result := .ok (), fs := fs, logLines := 1 }

/-- `GET /auto-instrumented` (src/app.py lines 149-152): fixed response,
one log record. -/
def auto_instrumented_route (fs : FileContents) : HandlerOutcome Unit :=
  { result := .ok (), fs := fs, logLines := 1 }

/-- `GET /add_course` (src/app.py lines 123-124): logs once and renders the
blank form. -/
def add_course_get_route (fs : FileContents) : HandlerOutcome Unit :=
  { result := .ok (), fs := fs, logLines := 1 }

def required_fields : List String :=
  ["code", "name", "instructor", "semester"]

/-- The required fields whose submitted value is absent or blank after
trimming (src/app.py line 100). -/
def missing_of (form : Form) : List String :=
  required_fields.filter (fun field => strip (formGet form field "") = "")

/-- The validation-failure message flashed and logged
(src/app.py line 103). -/
def missing_message (fields : List String) : String :=
  "Required fields missing: " ++ String.intercalate ", " fields

/-- The Course record built on the add-course success path
(src/app.py lines 109-118): every textual field trimmed, absent optional
fields defaulting to the empty string. On this path the four required keys
are present (a missing key would have read as blank), so `request.form[k]`
coincides with `request.form.get(k, '')`. -/
def course_of_form (form : Form) : Course :=
  { code := strip (formGet form "code" ""),
    name := strip (formGet form "name" ""),
    instructor := strip (formGet form "instructor" ""),
    semester := strip (formGet form "semester" ""),
    schedule := strip (formGet form "schedule" ""),
    classroom := strip (formGet form "classroom" ""),
    prerequisites := strip (formGet form "prerequisites" ""),
    grading := strip (formGet form "grading" ""),
    description := strip (formGet form "description" "") }

/-- Result of the add-course POST handler. -/
inductive AddResult where
  | redirectForm (flashMessage : String) : AddResult
  | redirectCatalog (flashMessage : String) : AddResult
  deriving Repr, DecidableEq

/-- `POST /add_course` (src/app.py lines 98-122): reject with an error
flash and a redirect to the form when a required field is blank after
trimming; otherwise build the trimmed record, persist it via
`save_courses` and redirect to the catalog with a success flash. Each
branch emits one log record; an exception from `save_courses` escapes
before the success log line runs. -/
def add_course_post (form : Form) (fs : FileContents) :
    HandlerOutcome AddResult :=
  if missing_of form ≠ [] then
    { result := .ok (.redirectForm (missing_message (missing_of form))),
      fs := fs, logLines := 1 }
  else
    let c := course_of_form form
    match save_courses c.toJson fs with
    | (.ok _, fs2) =>
        { result := .ok (.redirectCatalog
            ("Course '" ++ c.name ++ "' added successfully!")),
          fs := fs2, logLines := 1 }
    | (.error e, fs2) =>
        { result := .error e, fs := fs2, logLines := 0 }

/-- Subscripting a JSON value with a string key (`course['code']`):
`KeyError` when the key is absent from an object, `TypeError` on
non-objects. -/
def getItem (j : Json) (k : String) : Except PyError Json :=
  match j with
  | .obj kvs =>
      match List.lookup k kvs with
      | some v => .ok v
      | none => .error (.keyError k)
  | _ => .error .typeError

/-- Python `==` between a JSON value and a string. -/
def jsonEqStr (j : Json) (s : String) : Bool :=
  match j with
  | .str t => t == s
  | _ => false

/-- Python truthiness of a JSON value (`if not course:`). -/
def jsonTruthy (j : Json) : Bool :=
  match j with
  | .null => false
  | .bool b => b
  | .num n => n != 0
  | .str s => !s.isEmpty
  | .arr xs => !xs.isEmpty
  | .obj kvs => !kvs.isEmpty

/-- `next((course for course in courses if course['code'] == code), None)`
(src/app.py line 130): first element whose `code` entry equals the path
parameter, `None` when there is none, propagating a subscript error. -/
def find_course (js : List Json) (code : String) :
    Except PyError (Option Json) :=
  match js with
  | [] => .ok none
  | c :: rest =>
      match getItem c "code" with
      | .error e => .error e
      | .ok v =>
          if jsonEqStr v code then .ok (some c) else find_course rest code

/-- The not-found message flashed and logged (src/app.py line 132). -/
def not_found_message (code : String) : String :=
  "No course with code '" ++ code ++ "' found"

/-- Result of the course-details handler. -/
inductive DetailResult where
  | render (c : Json) : DetailResult
  | redirectCatalog (flashMessage : String) : DetailResult

/-- `GET /course/<code>` (src/app.py lines 126-138): load all courses, scan
for the first record with the given code, redirect to the catalog with a
not-found flash when the scan yields nothing falsy-or-None, otherwise log
(reading `course['name']`) and render the detail view. Iterating a
non-list document yields strings (dict keys or characters), whose
subscripting raises `TypeError`; an empty object or empty string yields no
items, hence the not-found path. -/
def course_details_route (code : String) (fs : FileContents) :
    HandlerOutcome DetailResult :=
  match load_courses fs with
  | .error e => { result := .error e, fs := fs, logLines := 0 }
  | .ok (.arr js) =>
      match find_course js code with
      | .error e => { result := .error e, fs := fs, logLines := 0 }
      | .ok none =>
          { result := .ok (.redirectCatalog (not_found_message code)),
            fs := fs, logLines := 1 }
      | .ok (some c) =>
          if jsonTruthy c then
            match getItem c "name" with
            | .error e => { result := .error e, fs := fs, logLines := 0 }
            | .ok _ => { result := .ok (.render c), fs := fs, logLines := 1 }
          else
            { result := .ok (.redirectCatalog (not_found_message code)),
              fs := fs, logLines := 1 }
  | .ok (.obj kvs) =>
      if kvs.isEmpty then
        { result := .ok (.redirectCatalog (not_found_message code)),
          fs := fs, logLines := 1 }
      else { result := .error .typeError, fs := fs, logLines := 0 }
  | .ok (.str s) =>
      if s.isEmpty then
        { result := .ok (.redirectCatalog (not_found_message code)),
          fs := fs, logLines := 1 }
      else { result := .error .typeError, fs := fs, logLines := 0 }
  | .ok _ => { result := .error .typeError, fs := fs, logLines := 0 }

/-- A Python `logging` record, with the attributes `JsonFormatter` reads. -/
structure LogRecord where
  asctime : String
  levelname : String
  message : String
  loggerName : String
  pathname : String
  lineno : Nat

/-- `JsonFormatter.format` (src/app.py lines 20-28): the key/value pairs of
the structured JSON object serialized for every log record. -/
def JsonFormatter_format (r : LogRecord) : List (String × Json) :=
  [("timestamp", .str r.asctime),
   ("level", .str r.levelname),
   ("message", .str r.message),
   ("logger", .str r.loggerName),
   ("filename", .str r.pathname),
   ("line", .num (r.lineno : Int))]

/-- C4: when a required field of the add-course submission is absent or
blank after trimming, the handler leaves the backing document untouched,
flashes the error message listing the missing fields, redirects back to
the form, and logs once. -/
theorem add_course_missing_rejected (form : Form) (fs : FileContents)
    (h : ∃ field ∈ required_fields, strip (formGet form field "") = "") :
    add_course_post form fs =
      { result := .ok (.redirectForm (missing_message (missing_of form))),
        fs := fs, logLines := 1 } := by
  have hm : missing_of form ≠ [] := by
    rcases h with ⟨field, hmem, hblank⟩
    intro hnil
    have hin : field ∈ missing_of form :=
      List.mem_filter.mpr ⟨hmem, by simp [hblank]⟩
    simp [hnil] at hin
  simp [add_course_post, hm]

def sampleMissingForm : Form := [("code", "CS101"), ("semester", "  ")]

theorem add_course_missing_rejected_witness :
    (∃ field ∈ required_fields,
        strip (formGet sampleMissingForm field "") = "") ∧
    add_course_post sampleMissingForm .absent =
      { result := .ok (.redirectForm
          (missing_message (missing_of sampleMissingForm))),
        fs := .absent, logLines := 1 } :=
  ⟨⟨"name", by decide, by decide⟩,
    add_course_missing_rejected sampleMissingForm .absent
      ⟨"name", by decide, by decide⟩⟩

/-- C5: when all four required fields are present and non-blank after
trimming, the handler appends exactly one record, built from the trimmed
fields with absent optional fields defaulting to the empty string, and
redirects to the catalog with a success flash; the stored count grows by
one. -/
theorem add_course_success_persists (form : Form) (fs : FileContents)
    (cs : List Json)
    (hvalid : ∀ field ∈ required_fields, strip (formGet form field "") ≠ "")
    (hload : load_courses fs = .ok (.arr cs)) :
    add_course_post form fs =
      { result := .ok (.redirectCatalog
          ("Course '" ++ (course_of_form form).name ++
            "' added successfully!")),
        fs := .valid (.arr (cs ++ [(course_of_form form).toJson])),
        logLines := 1 } ∧
    (cs ++ [(course_of_form form).toJson]).length = cs.length + 1 ∧
    (List.lookup "schedule" form = none →
      (course_of_form form).schedule = "") ∧
    (List.lookup "classroom" form = none →
      (course_of_form form).classroom = "") ∧
    (List.lookup "prerequisites" form = none →
      (course_of_form form).prerequisites = "") ∧
    (List.lookup "grading" form = none →
      (course_of_form form).grading = "") ∧
    (List.lookup "description" form = none →
      (course_of_form form).description = "") := by
  have hm : missing_of form = [] := by
    rw [missing_of, List.filter_eq_nil_iff]
    intro field hmem
    simpa using hvalid field hmem
  refine ⟨?_, by simp, ?_, ?_, ?_, ?_, ?_⟩
  · simp only [add_course_post, hm, ne_eq, not_true_eq_false, if_false,
      ite_false]
    simp only [save_courses, hload]
  · intro hnone; simp [course_of_form, formGet, hnone, strip]
  · intro hnone; simp [course_of_form, formGet, hnone, strip]
  · intro hnone; simp [course_of_form, formGet, hnone, strip]
  · intro hnone; simp [course_of_form, formGet, hnone, strip]
  · intro hnone; simp [course_of_form, formGet, hnone, strip]

def sampleValidForm : Form :=
  [("code", " CS101 "), ("name", "Intro"), ("instructor", "A. Lee"),
   ("semester", "Fall")]

theorem add_course_success_persists_witness :
    (∀ field ∈ required_fields,
        strip (formGet sampleValidForm field "") ≠ "") ∧
    load_courses .absent = .ok (.arr []) ∧
    add_course_post sampleValidForm .absent =
      { result := .ok (.redirectCatalog
          ("Course '" ++ (course_of_form sampleValidForm).name ++
            "' added successfully!")),
        fs := .valid (.arr ([] ++ [(course_of_form sampleValidForm).toJson])),
        logLines := 1 } :=
  ⟨by decide, rfl,
    (add_course_success_persists sampleValidForm .absent []
      (by decide) rfl).1⟩

theorem getItem_toJson_code (c : Course) :
    getItem c.toJson "code" = .ok (.str c.code) := rfl

theorem getItem_toJson_name (c : Course) :
    getItem c.toJson "name" = .ok (.str c.name) := rfl

theorem jsonTruthy_toJson (c : Course) : jsonTruthy c.toJson = true := rfl

theorem find_course_skips (pre : List Course) (c : Course)
    (rest : List Json) (code : String)
    (hpre : ∀ p ∈ pre, p.code ≠ code) (hc : c.code = code) :
    find_course (pre.map Course.toJson ++ c.toJson :: rest) code =
      .ok (some c.toJson) := by
  induction pre with
  | nil =>
      simp only [List.map_nil, List.nil_append, find_course,
        getItem_toJson_code, jsonEqStr]
      rw [if_pos (by simp [hc])]
  | cons p ps ih =>
      have hp : p.code ≠ code := hpre p (List.mem_cons_self p ps)
      simp only [List.map_cons, List.cons_append, find_course,
        getItem_toJson_code, jsonEqStr]
      rw [if_neg (by simp [hp])]
      exact ih (fun q hq => hpre q (List.mem_cons_of_mem p hq))

theorem find_course_none (cs : List Course) (code : String)
    (h : ∀ p ∈ cs, p.code ≠ code) :
    find_course (cs.map Course.toJson) code = .ok none := by
  induction cs with
  | nil => rfl
  | cons p ps ih =>
      have hp : p.code ≠ code := h p (List.mem_cons_self p ps)
      simp only [List.map_cons, find_course, getItem_toJson_code, jsonEqStr]
      rw [if_neg (by simp [hp])]
      exact ih (fun q hq => h q (List.mem_cons_of_mem p hq))

/-- C6: `GET /course/<code>` renders the detail view of the first record
in file order whose `code` equals the path parameter, even when later
records share that code. -/
theorem course_details_first_match (pre : List Course) (c : Course)
    (post : List Course) (code : String)
    (hpre : ∀ p ∈ pre, p.code ≠ code) (hc : c.code = code) :
    course_details_route code
        (.valid (.arr ((pre ++ c :: post).map Course.toJson))) =
      { result := .ok (.render c.toJson),
        fs := .valid (.arr ((pre ++ c :: post).map Course.toJson)),
        logLines := 1 } := by
  have hfind : find_course ((pre ++ c :: post).map Course.toJson) code =
      .ok (some c.toJson) := by
    rw [List.map_append, List.map_cons]
    exact find_course_skips pre c (post.map Course.toJson) code hpre hc
  simp only [course_details_route, load_courses, hfind,
    jsonTruthy_toJson, if_true, getItem_toJson_name]

def courseA : Course :=
  { code := "CS101", name := "Intro", instructor := "A. Lee",
    semester := "Fall", schedule := "", classroom := "",
    prerequisites := "", grading := "", description := "" }

def courseB : Course :=
  { code := "CS102", name := "Algo", instructor := "B. Roy",
    semester := "Fall", schedule := "", classroom := "",
    prerequisites := "", grading := "", description := "" }

def courseA2 : Course :=
  { code := "CS101", name := "Intro again", instructor := "C. Kim",
    semester := "Spring", schedule := "", classroom := "",
    prerequisites := "", grading := "", description := "" }

theorem course_details_first_match_witness :
    (∀ p ∈ [courseB], p.code ≠ "CS101") ∧ courseA.code = "CS101" ∧
    course_details_route "CS101"
        (.valid (.arr (([courseB] ++ courseA :: [courseA2]).map
          Course.toJson))) =
      { result := .ok (.render courseA.toJson),
        fs := .valid (.arr (([courseB] ++ courseA :: [courseA2]).map
          Course.toJson)),
        logLines := 1 } :=
  ⟨by decide, rfl,
    course_details_first_match [courseB] courseA [courseA2] "CS101"
      (by decide) rfl⟩

/-- C7: when no stored record's `code` equals the path parameter,
`GET /course/<code>` flashes the not-found notice and redirects to the
catalog, leaving the stored data unchanged. -/
theorem course_details_not_found (cs : List Course) (code : String)
    (h : ∀ p ∈ cs, p.code ≠ code) :
    course_details_route code (.valid (.arr (cs.map Course.toJson))) =
      { result := .ok (.redirectCatalog (not_found_message code)),
        fs := .valid (.arr (cs.map Course.toJson)), logLines := 1 } := by
  simp only [course_details_route, load_courses, find_course_none cs code h]

theorem course_details_not_found_witness :
    (∀ p ∈ [courseA, courseB], p.code ≠ "NOPE") ∧
    course_details_route "NOPE"
        (.valid (.arr ([courseA, courseB].map Course.toJson))) =
      { result := .ok (.redirectCatalog (not_found_message "NOPE")),
        fs := .valid (.arr ([courseA, courseB].map Course.toJson)),
        logLines := 1 } :=
  ⟨by decide,
    course_details_not_found [courseA, courseB] "NOPE" (by decide)⟩

/-- Total log records for one handled request (handler body plus the
error-handler's record when an exception escaped). -/
def total_logs {α : Type} (out : HandlerOutcome α) : Nat :=
  (handle_errors out).2.2

theorem add_course_post_one_log (form : Form) (fs : FileContents) :
    total_logs (add_course_post form fs) = 1 := by
  by_cases hm : missing_of form ≠ []
  · simp [add_course_post, hm, total_logs, handle_errors]
  · rcases fs with _ | raw | v
    · simp [add_course_post, hm, total_logs, handle_errors, save_courses,
        load_courses]
    · simp [add_course_post, hm, total_logs, handle_errors, save_courses,
        load_courses]
    · rcases v with _ | b | n | s | js | kvs <;>
        simp [add_course_post, hm, total_logs, handle_errors, save_courses,
          load_courses]

theorem course_details_one_log (code : String) (fs : FileContents) :
    total_logs (course_details_route code fs) = 1 := by
  rcases fs with _ | raw | v
  · rfl
  · rfl
  · rcases v with _ | b | n | s | js | kvs
    · rfl
    · rfl
    · rfl
    · by_cases hs : s.isEmpty <;>
        simp [course_details_route, load_courses, hs, total_logs,
          handle_errors]
    · rcases hfind : find_course js code with e | found
      · simp [course_details_route, load_courses, hfind, total_logs,
          handle_errors]
      · rcases found with _ | c
        · simp [course_details_route, load_courses, hfind, total_logs,
            handle_errors]
        · by_cases ht : jsonTruthy c
          · rcases hname : getItem c "name" with e | v <;>
              simp [course_details_route, load_courses, hfind, ht, hname,
                total_logs, handle_errors]
          · simp [course_details_route, load_courses, hfind, ht,
              total_logs, handle_errors]
    · by_cases hk : kvs.isEmpty <;>
        simp [course_details_route, load_courses, hk, total_logs,
          handle_errors]

/-- C9 counterexample: handling `GET /` to completion emits no log record
at all — not one — because the `index` handler body contains no logging
call. -/
theorem index_request_not_one_log :
    total_logs (index_route .absent) ≠ 1 := by decide

/-- C9 (amended): every handled request to the catalog, add-course (form
and submission), course-details, manual-trace and auto-instrumented routes
emits exactly one structured log record, the home route emits none, and
every record formatted by `JsonFormatter` carries exactly the six fields
timestamp, level, message, logger name, source file and line number. -/
theorem one_log_per_instrumented_request (fs : FileContents) (form : Form)
    (code : String) (r : LogRecord) :
    total_logs (index_route fs) = 0 ∧
    total_logs (course_catalog_route fs) = 1 ∧
    total_logs (add_course_get_route fs) = 1 ∧
    total_logs (add_course_post form fs) = 1 ∧
    total_logs (course_details_route code fs) = 1 ∧
    total_logs (manual_trace_route fs) = 1 ∧
    total_logs (auto_instrumented_route fs) = 1 ∧
    (JsonFormatter_format r).map Prod.fst =
      ["timestamp", "level", "message", "logger", "filename", "line"] := by
  refine ⟨rfl, ?_, rfl, add_course_post_one_log form fs,
    course_details_one_log code fs, rfl, rfl, rfl⟩
  rcases fs with _ | raw | v
  · rfl
  · rfl
  · rcases v with _ | b | n | s | js | kvs <;> rfl

end CourseCatalog
